import Mathlib

/-!
Verification of the Goal Lifecycle & Progress Analytics Engine of the
body-recomp backend.

Shallow embedding conventions:
* `Decimal` quantities (body-fat percentages, weights, thresholds) are
  modelled as `ℚ`; the source's decimal arithmetic on these values
  (addition, subtraction, comparison, scaling by decimal constants) is
  exact, so `ℚ` is a faithful model.
* Timestamps (`measured_at`, `logged_at`, `datetime.utcnow()`) are seconds
  as `ℤ`; Python's `timedelta.days` is floor division by 86400 and `//`
  is floor division, both modelled with `Int.fdiv`.
* Python `round` (banker's rounding, used by `calculate_bmr` and
  `calculate_tdee`) is `pyRound` below: round half to even.
* `math.log10`-based Navy formulas are modelled over `ℝ` with
  `Real.logb 10`; `round(x, 2)` is `round2`.
* Fallible service methods (`raise ValueError`) return `Except`.
-/

namespace BodyRecomp

/-- Gender enum from src/models/enums.py. -/
inductive Gender
  | male
  | female
deriving DecidableEq, Repr

/-- GoalType enum from src/models/enums.py. -/
inductive GoalType
  | cutting
  | bulking
deriving DecidableEq, Repr

/-- GoalStatus enum from src/models/enums.py. -/
inductive GoalStatus
  | active
  | completed
  | cancelled
deriving DecidableEq, Repr

/-- ActivityLevel enum from src/models/enums.py. -/
inductive ActivityLevel
  | sedentary
  | lightlyActive
  | moderatelyActive
  | veryActive
  | extremelyActive
deriving DecidableEq, Repr

/-- BodyMeasurement (src/models/measurement.py): the fields the progress
and goal services read.  `measuredAt` is a timestamp in seconds. -/
structure Measurement where
  userId : ℕ
  weightKg : ℚ
  calculatedBodyFatPercentage : ℚ
  measuredAt : ℤ
deriving DecidableEq, Repr

/-- ProgressEntry (src/models/progress.py) plus its referenced
measurement (the services join `measurement_id` back to the measurement
row; the model carries the joined record directly). -/
structure ProgressEntry where
  weekNumber : ℕ
  bodyFatPercentage : ℚ
  weightKg : ℚ
  bodyFatChange : ℚ
  weightChangeKg : ℚ
  isOnTrack : Bool
  notes : Option String
  loggedAt : ℤ
  measurement : Measurement
deriving DecidableEq, Repr

/-- Goal (src/models/goal.py): the fields the services read and write,
with the `initial_measurement` and `progress_entries` relationships
loaded (the services always `selectinload` them). -/
structure Goal where
  userId : ℕ
  goalType : GoalType
  status : GoalStatus
  initialMeasurement : Measurement
  targetBodyFatPercentage : Option ℚ
  ceilingBodyFatPercentage : Option ℚ
  targetCalories : ℤ
  estimatedWeeksToGoal : ℤ
  startedAt : ℤ
  completedAt : Option ℤ
  progressEntries : List ProgressEntry
deriving DecidableEq, Repr

/-- Python `round`: round half to even (used by `calculate_bmr` and
`calculate_tdee` in src/services/goal_service.py). -/
def pyRound (q : ℚ) : ℤ :=
  let f := ⌊q⌋
  let r := q - (f : ℚ)
  if r < 1/2 then f
  else if 1/2 < r then f + 1
  else if f % 2 = 0 then f else f + 1

/-- GoalService.calculate_bmr (src/services/goal_service.py lines 24-50):
Mifflin-St Jeor, male +5, female -161, rounded to nearest integer. -/
def calculate_bmr (weightKg heightCm : ℚ) (ageYears : ℤ) (gender : Gender) : ℤ :=
  let bmr := 10 * weightKg + (625/100) * heightCm - 5 * (ageYears : ℚ)
  pyRound (if gender = Gender.male then bmr + 5 else bmr - 161)

/-- Activity multipliers from GoalService.calculate_tdee. -/
def activityMultiplier : ActivityLevel → ℚ
  | ActivityLevel.sedentary => 12/10
  | ActivityLevel.lightlyActive => 1375/1000
  | ActivityLevel.moderatelyActive => 155/100
  | ActivityLevel.veryActive => 1725/1000
  | ActivityLevel.extremelyActive => 19/10

/-- GoalService.calculate_tdee (src/services/goal_service.py lines 52-75). -/
def calculate_tdee (bmr : ℤ) (level : ActivityLevel) : ℤ :=
  pyRound ((bmr : ℚ) * activityMultiplier level)

/-- GoalService.calculate_cutting_calories (src/services/goal_service.py
lines 77-98): tdee - deficit floored at 1500 (male) / 1200 (female). -/
def calculate_cutting_calories (tdee : ℤ) (gender : Gender) (deficit : ℤ) : ℤ :=
  let target := tdee - deficit
  let minimum : ℤ := if gender = Gender.male then 1500 else 1200
  max target minimum

/-- GoalService.calculate_bulking_calories (src/services/goal_service.py
lines 100-110). -/
def calculate_bulking_calories (tdee : ℤ) (surplus : ℤ) : ℤ :=
  tdee + surplus

/-- GoalService.validate_goal_safety (src/services/goal_service.py
lines 154-213). -/
def validate_goal_safety (goalType : GoalType) (currentBf : ℚ)
    (targetBf ceilingBf : Option ℚ) (gender : Gender) : Except String Unit :=
  match goalType with
  | GoalType.cutting =>
    match targetBf with
    | none => Except.error ("target_body_fat_percentage required for cutting goals")
    | some t =>
      let minBf : ℚ := if gender = Gender.male then 8 else 15
      if t < minBf then
        Except.error ("Target body fat too low. Minimum safe level reached")
      else if t ≥ currentBf then
        Except.error ("Target body fat must be lower than current body fat for cutting goals")
      else Except.ok ()
  | GoalType.bulking =>
    match ceilingBf with
    | none => Except.error ("ceiling_body_fat_percentage required for bulking goals")
    | some c =>
      if c > 30 then
        Except.error ("Ceiling body fat too high. Maximum safe level is 30 percent")
      else if c ≤ currentBf then
        Except.error ("Ceiling body fat must be higher than current body fat for bulking goals")
      else Except.ok ()

/-- GoalService.check_goal_completion (src/services/goal_service.py
lines 352-397), as a pure function of the loaded goal: returns the
completion flag and the (possibly updated) goal.  The source guards each
comparison with Python truthiness of the boundary (`None` and `0` are
falsy). -/
def check_goal_completion (goal : Goal) (currentBodyFat : ℚ) (now : ℤ) :
    Bool × Goal :=
  if goal.status ≠ GoalStatus.active then (false, goal)
  else
    let completed :=
      match goal.goalType with
      | GoalType.cutting =>
        match goal.targetBodyFatPercentage with
        | some t => if t = 0 then false else decide (currentBodyFat ≤ t)
        | none => false
      | GoalType.bulking =>
        match goal.ceilingBodyFatPercentage with
        | some c => if c = 0 then false else decide (c ≤ currentBodyFat)
        | none => false
    if completed then
      (true, { goal with status := GoalStatus.completed, completedAt := some now })
    else (false, goal)

/-- Calendar date (year, month 1..12, day 1..31). -/
structure CivilDate where
  year : ℤ
  month : ℕ
  day : ℕ
deriving DecidableEq, Repr

/-- Days since the Unix epoch of a Gregorian calendar date (standard
civil-from-days algorithm); models what `datetime` subtraction followed
by `.days` computes for midnight-to-midnight differences. -/
def daysFromCivil (d : CivilDate) : ℤ :=
  let y : ℤ := if d.month ≤ 2 then d.year - 1 else d.year
  let era : ℤ := (if 0 ≤ y then y else y - 399) / 400
  let yoe : ℤ := y - era * 400
  let mp : ℤ := ((d.month : ℤ) + 9) % 12
  let doy : ℤ := (153 * mp + 2) / 5 + (d.day : ℤ) - 1
  let doe : ℤ := yoe * 365 + yoe / 4 - yoe / 100 + doy
  era * 146097 + doe - 719468

/-- Age as computed by GoalService.create_goal (src/services/goal_service.py
line 295): `(datetime.utcnow() - user.date_of_birth).days // 365`. -/
def createGoalAge (dob now : CivilDate) : ℤ :=
  Int.fdiv (daysFromCivil now - daysFromCivil dob) 365

/-- Age as computed by the measurements router
(src/api/routers/measurements.py lines 56-61): calendar-year subtraction
minus one when the birthday has not yet occurred this year. -/
def calendarAge (dob today : CivilDate) : ℤ :=
  today.year - dob.year -
    (if today.month < dob.month ∨ (today.month = dob.month ∧ today.day < dob.day)
     then 1 else 0)

/-- Error cases raised by ProgressService.log_progress
(src/services/progress_service.py lines 94-194); `tooSoon` carries the
elapsed whole-day count that the source interpolates into its message. -/
inductive LogError
  | goalNotActive
  | ownershipMismatch
  | tooSoon (days : ℤ)
deriving DecidableEq, Repr

/-- Warning returned by ProgressService.check_bulking_ceiling; the source
returns a message string, `approaching` carries the interpolated diff. -/
inductive CeilingWarning
  | reached
  | approaching (diff : ℚ)
deriving DecidableEq, Repr

/-- Whole days between two timestamps: Python
`(t2 - t1).days` on datetimes, i.e. floor of the difference in days. -/
def daysBetween (t2 t1 : ℤ) : ℤ :=
  Int.fdiv (t2 - t1) 86400

/-- ProgressService.check_bulking_ceiling (src/services/progress_service.py
lines 32-62): (warning, should_complete_goal). -/
def checkBulkingCeiling (currentBf ceilingBf : ℚ) : Option CeilingWarning × Bool :=
  let diff := ceilingBf - currentBf
  if diff ≤ 0 then (some CeilingWarning.reached, true)
  else if diff < 1 then (some (CeilingWarning.approaching diff), false)
  else (none, false)

/-- ProgressService.check_bulking_rate (src/services/progress_service.py
lines 64-92): the warning message interpolates the rate, modelled by
returning the rate itself. -/
def checkBulkingRate (previousBf currentBf : ℚ) (weeks : ℤ) : Option ℚ :=
  if weeks ≤ 0 then none
  else
    let rate := (currentBf - previousBf) / (weeks : ℚ)
    if rate > 1/2 then some rate else none

/-- ProgressService._calculate_on_track_status (src/services/progress_service.py
lines 273-308).  `bodyFatChange` is the value the caller passes (the change
versus the prior checkpoint) and `weeksElapsed` the new week number; the
source keeps `initial - (initial + change)` verbatim. -/
def calculateOnTrackStatus (goalType : GoalType) (initialBf bodyFatChange : ℚ)
    (weeksElapsed : ℕ) : Bool :=
  match goalType with
  | GoalType.cutting =>
    let expectedMinLoss := (4/10 : ℚ) * (weeksElapsed : ℚ)
    let expectedMaxLoss := (12/10 : ℚ) * (weeksElapsed : ℚ)
    let totalLoss := initialBf - (initialBf + bodyFatChange)
    decide (expectedMinLoss ≤ |totalLoss| ∧ |totalLoss| ≤ expectedMaxLoss)
  | GoalType.bulking =>
    let expectedMinGain := (1/10 : ℚ) * (weeksElapsed : ℚ)
    let expectedMaxGain := (6/10 : ℚ) * (weeksElapsed : ℚ)
    let totalGain := bodyFatChange
    decide (expectedMinGain ≤ totalGain ∧ totalGain ≤ expectedMaxGain)

/-- Python `max(entries, key=lambda e: e.logged_at)`: first entry with the
maximal `logged_at` (ties keep the earlier element), `none` on empty. -/
def lastEntryByLoggedAt : List ProgressEntry → Option ProgressEntry
  | [] => none
  | e :: es =>
    some (es.foldl (fun acc x => if acc.loggedAt < x.loggedAt then x else acc) e)

/-- Python `max(entries, key=lambda e: e.week_number)` (calculate_progress_percentage). -/
def latestEntryByWeek : List ProgressEntry → Option ProgressEntry
  | [] => none
  | e :: es =>
    some (es.foldl (fun acc x => if acc.weekNumber < x.weekNumber then x else acc) e)

/-- The prior checkpoint of a goal: the latest progress entry's measurement
when entries exist, else the goal's initial measurement (the two branches of
log_progress, src/services/progress_service.py lines 146-194, factored). -/
def priorCheckpointMeasurement (goal : Goal) : Measurement :=
  match lastEntryByLoggedAt goal.progressEntries with
  | some e => e.measurement
  | none => goal.initialMeasurement

/-- Result of a successful log_progress call: the created entry, the goal
as left by the call, and the two transient bulking warnings attached to
the response. -/
structure LogResult where
  entry : ProgressEntry
  goal : Goal
  ceilingWarning : Option CeilingWarning
  rateWarning : Option ℚ
deriving DecidableEq, Repr

/-- ProgressService.log_progress (src/services/progress_service.py
lines 94-271) as a pure function of the loaded goal and measurement.
The source computes the cadence check and the deltas against the latest
entry's measurement when entries exist and against the initial
measurement otherwise; both branches are expressed through
`priorCheckpointMeasurement`.  `now` stands for `datetime.utcnow()`. -/
def logProgress (goal : Goal) (m : Measurement) (notes : Option String)
    (now : ℤ) : Except LogError LogResult :=
  if goal.status ≠ GoalStatus.active then Except.error LogError.goalNotActive
  else if m.userId ≠ goal.userId then Except.error LogError.ownershipMismatch
  else
    let weekNumber := goal.progressEntries.length + 1
    let prior := priorCheckpointMeasurement goal
    let d := daysBetween m.measuredAt prior.measuredAt
    if d < 7 then Except.error (LogError.tooSoon d)
    else
      let bodyFatChange :=
        m.calculatedBodyFatPercentage - prior.calculatedBodyFatPercentage
      let weightChange := m.weightKg - prior.weightKg
      let isOnTrack := calculateOnTrackStatus goal.goalType
        goal.initialMeasurement.calculatedBodyFatPercentage bodyFatChange weekNumber
      let ceilingPair :=
        if goal.goalType = GoalType.bulking then
          match goal.ceilingBodyFatPercentage with
          | some c =>
            if c = 0 then (none, false)
            else checkBulkingCeiling m.calculatedBodyFatPercentage c
          | none => (none, false)
        else (none, false)
      let rateWarning :=
        if goal.goalType = GoalType.bulking then
          match lastEntryByLoggedAt goal.progressEntries with
          | some last =>
            let weeksBetween :=
              Int.fdiv (daysBetween m.measuredAt last.measurement.measuredAt) 7
            checkBulkingRate last.measurement.calculatedBodyFatPercentage
              m.calculatedBodyFatPercentage (max 1 weeksBetween)
          | none => none
        else none
      let entry : ProgressEntry :=
        { weekNumber := weekNumber
          bodyFatPercentage := m.calculatedBodyFatPercentage
          weightKg := m.weightKg
          bodyFatChange := bodyFatChange
          weightChangeKg := weightChange
          isOnTrack := isOnTrack
          notes := notes
          loggedAt := now
          measurement := m }
      let goal1 := { goal with progressEntries := goal.progressEntries ++ [entry] }
      let goal2 :=
        if ceilingPair.2 then
          { goal1 with status := GoalStatus.completed, completedAt := some now }
        else goal1
      Except.ok
        { entry := entry, goal := goal2
          ceilingWarning := ceilingPair.1, rateWarning := rateWarning }

/-- Stable insertion used to model Python `sorted(entries, key=week_number)`. -/
def insertEntry (x : ProgressEntry) : List ProgressEntry → List ProgressEntry
  | [] => [x]
  | y :: ys =>
    if x.weekNumber ≤ y.weekNumber then x :: y :: ys else y :: insertEntry x ys

/-- Python `sorted(goal.progress_entries, key=lambda e: e.week_number)`
(src/services/progress_service.py lines 390-393): stable ascending sort. -/
def sortEntriesByWeek : List ProgressEntry → List ProgressEntry
  | [] => []
  | x :: xs => insertEntry x (sortEntriesByWeek xs)

/-- ProgressService.calculate_progress_percentage
(src/services/progress_service.py lines 310-366) as a pure function of the
loaded goal.  Boundary truthiness (`if not target_bf`) treats `None` and
`0` alike. -/
def calculateProgressPercentage (goal : Goal) : ℚ :=
  match latestEntryByWeek goal.progressEntries with
  | none => 0
  | some latest =>
    let currentBf := latest.bodyFatPercentage
    let initialBf := goal.initialMeasurement.calculatedBodyFatPercentage
    match goal.goalType with
    | GoalType.cutting =>
      match goal.targetBodyFatPercentage with
      | none => 0
      | some t =>
        if t = 0 then 0
        else
          let progress := (initialBf - currentBf) / (initialBf - t) * 100
          max 0 (min 100 progress)
    | GoalType.bulking =>
      match goal.ceilingBodyFatPercentage with
      | none => 0
      | some c =>
        if c = 0 then 0
        else
          let progress := (currentBf - initialBf) / (c - initialBf) * 100
          max 0 (min 100 progress)

/-- ProgressService._classify_trend (src/services/progress_service.py
lines 457-499). -/
def classifyTrend (entries : List ProgressEntry) (goalType : GoalType) : String :=
  if entries.length < 3 then "insufficient_data"
  else
    let recent := entries.drop (entries.length - 3)
    let changes := recent.map (fun e => e.bodyFatChange)
    let avgChange := changes.sum / (changes.length : ℚ)
    match goalType with
    | GoalType.cutting =>
      if avgChange < -(4/10) then "improving"
      else if avgChange > -(2/10) then "plateau"
      else "improving"
    | GoalType.bulking =>
      if (2/10 : ℚ) ≤ avgChange ∧ avgChange ≤ 5/10 then "improving"
      else if avgChange < 1/10 then "plateau"
      else if avgChange > 6/10 then "worsening"
      else "improving"

/-- ProgressService._suggest_adjustments (src/services/progress_service.py
lines 501-557). -/
def suggestAdjustments (goalType : GoalType) (trend : String) (isOnTrack : Bool)
    (weeklyBfChangeAvg : ℚ) : Option String :=
  if trend = "insufficient_data" then
    some ("Keep logging weekly measurements to track progress")
  else
    match goalType with
    | GoalType.cutting =>
      if trend = "improving" ∧ isOnTrack = true then
        some ("Maintain current plan - excellent progress!")
      else if trend = "plateau" then
        some ("Progress has slowed. Consider increasing daily deficit by 100-200 calories or adding 1-2 cardio sessions per week.")
      else if isOnTrack = false ∧ weeklyBfChangeAvg > -(3/10) then
        some ("Progress slower than expected. Verify calorie tracking accuracy and consider increasing training volume.")
      else if weeklyBfChangeAvg < -1 then
        some ("Progress faster than expected - you may be losing muscle. Consider reducing deficit by 100-200 calories.")
      else
        some ("Progress is steady - keep up the good work!")
    | GoalType.bulking =>
      if trend = "improving" ∧ isOnTrack = true then
        some ("Maintain current plan - lean gaining on track!")
      else if trend = "plateau" then
        some ("Weight gain has stalled. Consider increasing daily surplus by 100-200 calories.")
      else if trend = "worsening" then
        some ("Gaining fat too quickly. Consider reducing daily surplus by 100-200 calories to stay lean.")
      else
        some ("Progress is steady - continue current approach!")

/-- ProgressService._estimate_weeks_remaining (src/services/progress_service.py
lines 559-602).  `int(weeks)` truncates; it is applied only when
`weeks > 0`, where truncation coincides with the floor. -/
def estimateWeeksRemaining (goal : Goal) (currentBf weeklyBfChangeAvg : ℚ) :
    Option ℤ :=
  if weeklyBfChangeAvg = 0 then none
  else
    match goal.goalType with
    | GoalType.cutting =>
      match goal.targetBodyFatPercentage with
      | none => none
      | some t =>
        if t = 0 then none
        else
          let remainingBf := currentBf - t
          if remainingBf ≤ 0 then some 0
          else
            let weeks := remainingBf / |weeklyBfChangeAvg|
            some (if weeks > 0 then ⌊weeks⌋ else 0)
    | GoalType.bulking =>
      match goal.ceilingBodyFatPercentage with
      | none => none
      | some c =>
        if c = 0 then none
        else
          let remainingBf := c - currentBf
          if remainingBf ≤ 0 then some 0
          else
            let weeks := remainingBf / weeklyBfChangeAvg
            some (if weeks > 0 then ⌊weeks⌋ else 0)

/-- Response shape of ProgressService.get_trends (src/schemas/progress.py
TrendsResponse, minus the echoed goal id). -/
structure TrendsResponse where
  progressPercentage : ℚ
  weeksElapsed : ℕ
  isOnTrack : Bool
  weeklyBfChangeAvg : ℚ
  weeklyWeightChangeAvg : ℚ
  trend : String
  adjustmentSuggestion : Option String
  estimatedWeeksRemaining : Option ℤ
deriving DecidableEq, Repr

/-- ProgressService.get_trends (src/services/progress_service.py
lines 368-455) as a pure function of the loaded goal. -/
def getTrends (goal : Goal) : TrendsResponse :=
  let progressEntries := sortEntriesByWeek goal.progressEntries
  if progressEntries.length < 2 then
    { progressPercentage := 0
      weeksElapsed := progressEntries.length
      isOnTrack := false
      weeklyBfChangeAvg := 0
      weeklyWeightChangeAvg := 0
      trend := "insufficient_data"
      adjustmentSuggestion := none
      estimatedWeeksRemaining := some goal.estimatedWeeksToGoal }
  else
    let totalBfChange := (progressEntries.map (fun e => e.bodyFatChange)).sum
    let totalWeightChange := (progressEntries.map (fun e => e.weightChangeKg)).sum
    let weeksElapsed := progressEntries.length
    let weeklyBfChangeAvg := totalBfChange / (weeksElapsed : ℚ)
    let weeklyWeightChangeAvg := totalWeightChange / (weeksElapsed : ℚ)
    let progressPct := calculateProgressPercentage goal
    let onTrackCount := (progressEntries.filter (fun e => e.isOnTrack)).length
    let isOnTrack := decide ((onTrackCount : ℚ) / (weeksElapsed : ℚ) ≥ 6/10)
    let trend := classifyTrend progressEntries goal.goalType
    let adjustment := suggestAdjustments goal.goalType trend isOnTrack weeklyBfChangeAvg
    let currentBf :=
      match progressEntries.getLast? with
      | some e => e.bodyFatPercentage
      | none => 0
    let estimatedWeeks := estimateWeeksRemaining goal currentBf weeklyBfChangeAvg
    { progressPercentage := progressPct
      weeksElapsed := weeksElapsed
      isOnTrack := isOnTrack
      weeklyBfChangeAvg := weeklyBfChangeAvg
      weeklyWeightChangeAvg := weeklyWeightChangeAvg
      trend := trend
      adjustmentSuggestion := adjustment
      estimatedWeeksRemaining := estimatedWeeks }

/-- Navy body-fat rounding: `Decimal(str(round(body_fat, 2)))`
(src/services/body_fat_calculator.py line 58). -/
noncomputable def round2 (x : ℝ) : ℝ :=
  ((round (100 * x) : ℤ) : ℝ) / 100

/-- Male branch of BodyFatCalculator.calculate_navy
(src/services/body_fat_calculator.py lines 41-47). -/
noncomputable def navyMaleBf (heightCm waistCm neckCm : ℝ) : ℝ :=
  round2 ((86010/1000) * Real.logb 10 (waistCm - neckCm)
    - (70041/1000) * Real.logb 10 heightCm + 36760/1000)

/-- Female branch of BodyFatCalculator.calculate_navy
(src/services/body_fat_calculator.py lines 48-56). -/
noncomputable def navyFemaleBf (heightCm waistCm neckCm hipCm : ℝ) : ℝ :=
  round2 ((163205/1000) * Real.logb 10 (waistCm + hipCm - neckCm)
    - (97684/1000) * Real.logb 10 heightCm - 78387/1000)

/-- BodyFatCalculator.calculate_navy (src/services/body_fat_calculator.py
lines 14-58). -/
noncomputable def calculate_navy (gender : Gender) (heightCm waistCm neckCm : ℝ)
    (hipCm : Option ℝ) : Except String ℝ :=
  match gender with
  | Gender.male => Except.ok (navyMaleBf heightCm waistCm neckCm)
  | Gender.female =>
    match hipCm with
    | none => Except.error ("Hip measurement required for women using Navy method")
    | some hip => Except.ok (navyFemaleBf heightCm waistCm neckCm hip)

/-! ### Helper lemmas -/

/-- Evaluation rule for `pyRound` when the fractional part is below one half. -/
theorem pyRound_eq_of_lt_half (q : ℚ) (f : ℤ) (h1 : (f : ℚ) ≤ q)
    (h2 : q - (f : ℚ) < 1/2) : pyRound q = f := by
  have hf : ⌊q⌋ = f := Int.floor_eq_iff.mpr ⟨h1, by linarith⟩
  simp only [pyRound, hf]
  rw [if_pos h2]

/-- Evaluation rule for `pyRound` when the fractional part exceeds one half. -/
theorem pyRound_eq_of_gt_half (q : ℚ) (f : ℤ) (h1 : (f : ℚ) ≤ q)
    (h2 : 1/2 < q - (f : ℚ)) (h3 : q < (f : ℚ) + 1) : pyRound q = f + 1 := by
  have hf : ⌊q⌋ = f := Int.floor_eq_iff.mpr ⟨h1, by linarith⟩
  simp only [pyRound, hf]
  rw [if_neg (by linarith), if_pos h2]

/-- `insertEntry` grows the list by one. -/
theorem insertEntry_length (x : ProgressEntry) (l : List ProgressEntry) :
    (insertEntry x l).length = l.length + 1 := by
  induction l with
  | nil => rfl
  | cons y ys ih =>
    simp only [insertEntry]
    split
    · rfl
    · simp [ih]

/-- Sorting the ledger preserves its length. -/
theorem sortEntriesByWeek_length (l : List ProgressEntry) :
    (sortEntriesByWeek l).length = l.length := by
  induction l with
  | nil => rfl
  | cons x xs ih => simp [sortEntriesByWeek, insertEntry_length, ih]

/-! ### Claim theorems -/

/-- C6: for every integer tdee, `calculate_cutting_calories` with the default
deficit of 400 returns at least 1500 for males and at least 1200 for females;
the sex-specific floor wins even when it shrinks the requested deficit. -/
theorem cutting_calories_floor (tdee : ℤ) :
    1500 ≤ calculate_cutting_calories tdee Gender.male 400 ∧
    1200 ≤ calculate_cutting_calories tdee Gender.female 400 := by
  constructor <;> simp [calculate_cutting_calories]

/-- C6 witness at tdee = 1000 (deficit makes the floor win). -/
theorem cutting_calories_floor_witness :
    1500 ≤ calculate_cutting_calories 1000 Gender.male 400 ∧
    1200 ≤ calculate_cutting_calories 1000 Gender.female 400 :=
  cutting_calories_floor 1000

/-- C9: the male Navy computation never reads the hip measurement - the
result is identical for any two hip inputs, including an absent one. -/
theorem navy_male_ignores_hip (heightCm waistCm neckCm : ℝ) (hip1 hip2 : Option ℝ) :
    calculate_navy Gender.male heightCm waistCm neckCm hip1 =
    calculate_navy Gender.male heightCm waistCm neckCm hip2 := rfl

/-- Rational bounds on `log10 52` via integer powers. -/
theorem logb_ten_52_bounds :
    (171/100 : ℝ) < Real.logb 10 52 ∧ Real.logb 10 52 < 172/100 := by
  constructor
  · have h1 : (10:ℝ) ^ ((171:ℕ) : ℝ) < ((52:ℝ) ^ (100:ℕ)) := by
      rw [Real.rpow_natCast]; norm_num
    have h2 : ((171:ℕ) : ℝ) < Real.logb 10 ((52:ℝ) ^ (100:ℕ)) :=
      (Real.lt_logb_iff_rpow_lt (by norm_num) (by positivity)).mpr h1
    rw [Real.logb_pow] at h2
    push_cast at h2
    linarith
  · have h1 : ((52:ℝ) ^ (100:ℕ)) < (10:ℝ) ^ ((172:ℕ) : ℝ) := by
      rw [Real.rpow_natCast]; norm_num
    have h2 : Real.logb 10 ((52:ℝ) ^ (100:ℕ)) < ((172:ℕ) : ℝ) :=
      (Real.logb_lt_iff_lt_rpow (by norm_num) (by positivity)).mpr h1
    rw [Real.logb_pow] at h2
    push_cast at h2
    linarith

/-- Rational bounds on `log10 175` via integer powers. -/
theorem logb_ten_175_bounds :
    (224/100 : ℝ) < Real.logb 10 175 ∧ Real.logb 10 175 < 225/100 := by
  constructor
  · have h1 : (10:ℝ) ^ ((224:ℕ) : ℝ) < ((175:ℝ) ^ (100:ℕ)) := by
      rw [Real.rpow_natCast]; norm_num
    have h2 : ((224:ℕ) : ℝ) < Real.logb 10 ((175:ℝ) ^ (100:ℕ)) :=
      (Real.lt_logb_iff_rpow_lt (by norm_num) (by positivity)).mpr h1
    rw [Real.logb_pow] at h2
    push_cast at h2
    linarith
  · have h1 : ((175:ℝ) ^ (100:ℕ)) < (10:ℝ) ^ ((225:ℕ) : ℝ) := by
      rw [Real.rpow_natCast]; norm_num
    have h2 : Real.logb 10 ((175:ℝ) ^ (100:ℕ)) < ((225:ℕ) : ℝ) :=
      (Real.logb_lt_iff_lt_rpow (by norm_num) (by positivity)).mpr h1
    rw [Real.logb_pow] at h2
    push_cast at h2
    linarith

/-- The Navy male result at height 175, waist 90, neck 38 lies in (15, 35). -/
theorem navyMaleBf_scenario_range :
    15 < navyMaleBf 175 90 38 ∧ navyMaleBf 175 90 38 < 35 := by
  have h52lo := logb_ten_52_bounds.1
  have h52hi := logb_ten_52_bounds.2
  have h175 := logb_ten_175_bounds
  have hval : (90:ℝ) - 38 = 52 := by norm_num
  have hlo : (26:ℝ) < (86010/1000) * Real.logb 10 ((90:ℝ) - 38)
      - (70041/1000) * Real.logb 10 175 + 36760/1000 := by
    rw [hval]; nlinarith [h175.2, h52lo]
  have hhi : (86010/1000) * Real.logb 10 ((90:ℝ) - 38)
      - (70041/1000) * Real.logb 10 175 + 36760/1000 < 28 := by
    rw [hval]; nlinarith [h175.1, h52hi]
  have hr := abs_sub_round ((100:ℝ) * ((86010/1000) * Real.logb 10 ((90:ℝ) - 38)
      - (70041/1000) * Real.logb 10 175 + 36760/1000))
  rw [abs_le] at hr
  simp only [navyMaleBf, round2]
  constructor
  · rw [lt_div_iff₀ (by norm_num : (0:ℝ) < 100)]
    linarith [hr.2]
  · rw [div_lt_iff₀ (by norm_num : (0:ℝ) < 100)]
    linarith [hr.1]

/-- BMR for the scenario male, 80 kg, 175 cm, 30 y: 1748.75 rounds to 1749. -/
theorem bmr_scenario : calculate_bmr 80 175 30 Gender.male = 1749 := by
  have h : (10 * (80:ℚ) + 625/100 * 175 - 5 * ((30:ℤ):ℚ)) + 5 = 6995/4 := by norm_num
  simp only [calculate_bmr, if_pos rfl, h, if_true]
  rw [pyRound_eq_of_gt_half (6995/4) 1748 (by norm_num) (by norm_num) (by norm_num)]
  norm_num

/-- TDEE at BMR 1749, moderately active: 1749 × 1.55 = 2710.95 rounds to
2711 (not the 2712 the spec scenario states). -/
theorem tdee_scenario : calculate_tdee 1749 ActivityLevel.moderatelyActive = 2711 := by
  have h : ((1749:ℤ):ℚ) * activityMultiplier ActivityLevel.moderatelyActive = 54219/20 := by
    norm_num [activityMultiplier]
  simp only [calculate_tdee, h]
  rw [pyRound_eq_of_gt_half (54219/20) 2710 (by norm_num) (by norm_num) (by norm_num)]
  norm_num

/-- C4 counterexample: the TDEE for BMR 1749 at moderately_active is not
2712 as the claim asserts (1749 × 1.55 = 2710.95, which rounds to 2711). -/
theorem tdee_scenario_not_2712 :
    calculate_tdee 1749 ActivityLevel.moderatelyActive ≠ 2712 := by
  rw [tdee_scenario]; decide

/-- C4 (amended): for the fixed male scenario (175 cm, age 30, 80 kg, Navy
waist 90 cm, neck 38 cm) the Navy body-fat result is strictly between 15.0
and 35.0, `calculate_bmr` returns exactly 1749, `calculate_tdee` at
moderately_active returns exactly 2711, and `calculate_cutting_calories` on
that TDEE (default deficit 400) returns exactly 2311. -/
theorem scenario_male_175 :
    calculate_navy Gender.male 175 90 38 none = Except.ok (navyMaleBf 175 90 38) ∧
    15 < navyMaleBf 175 90 38 ∧ navyMaleBf 175 90 38 < 35 ∧
    calculate_bmr 80 175 30 Gender.male = 1749 ∧
    calculate_tdee 1749 ActivityLevel.moderatelyActive = 2711 ∧
    calculate_cutting_calories 2711 Gender.male 400 = 2311 := by
  refine ⟨rfl, navyMaleBf_scenario_range.1, navyMaleBf_scenario_range.2,
    bmr_scenario, tdee_scenario, ?_⟩
  norm_num [calculate_cutting_calories]

/-- C7 counterexample: for date of birth 2000-01-10 and current date
2026-01-05 the age `create_goal` computes (elapsed days // 365) differs
from the calendar-year age the claim asserts it equals. -/
theorem create_goal_age_not_calendar :
    createGoalAge ⟨2000, 1, 10⟩ ⟨2026, 1, 5⟩ ≠
    calendarAge ⟨2000, 1, 10⟩ ⟨2026, 1, 5⟩ := by decide

/-- C7 (amended): `create_goal` computes age as elapsed whole days from the
date of birth integer-divided by 365, which can exceed the calendar-date
whole-year age once accumulated leap days outweigh the days still missing
until the birthday: born 2000-01-10, on 2026-01-05 it yields 26 while the
calendar age (as the measurements router computes it) is 25. -/
theorem create_goal_age_days_div_365 :
    createGoalAge ⟨2000, 1, 10⟩ ⟨2026, 1, 5⟩ = 26 ∧
    calendarAge ⟨2000, 1, 10⟩ ⟨2026, 1, 5⟩ = 25 ∧
    daysFromCivil ⟨2026, 1, 5⟩ - daysFromCivil ⟨2000, 1, 10⟩ = 9492 := by decide

/-- A cutting goal accepted by the safety validator has a positive target
strictly below the current body fat. -/
theorem validate_cutting_facts (bf t : ℚ) (ceiling : Option ℚ) (gender : Gender)
    (hv : validate_goal_safety GoalType.cutting bf (some t) ceiling gender = Except.ok ()) :
    0 < t ∧ t < bf := by
  simp only [validate_goal_safety] at hv
  split_ifs at hv with hg h1 h2 h3 h4
  · exact ⟨lt_of_lt_of_le (by norm_num) (not_lt.mp h1), not_le.mp h2⟩
  · exact ⟨lt_of_lt_of_le (by norm_num) (not_lt.mp h3), not_le.mp h4⟩

/-- A bulking goal accepted by the safety validator has its ceiling strictly
above the current body fat. -/
theorem validate_bulking_facts (bf c : ℚ) (target : Option ℚ) (gender : Gender)
    (hv : validate_goal_safety GoalType.bulking bf target (some c) gender = Except.ok ()) :
    bf < c := by
  simp only [validate_goal_safety] at hv
  split_ifs at hv with h1 h2
  · exact not_le.mp h2

/-- C5: a goal whose boundary passed `validate_goal_safety` against its
initial body-fat percentage is not completed by `check_goal_completion` at
that same initial value - the call returns false and leaves the goal
unchanged (hence still ACTIVE). -/
theorem create_then_check_not_complete (goal : Goal) (gender : Gender) (now : ℤ)
    (hv : validate_goal_safety goal.goalType
      goal.initialMeasurement.calculatedBodyFatPercentage
      goal.targetBodyFatPercentage goal.ceilingBodyFatPercentage gender = Except.ok ())
    (hst : goal.status = GoalStatus.active) :
    check_goal_completion goal goal.initialMeasurement.calculatedBodyFatPercentage now
      = (false, goal) := by
  unfold check_goal_completion
  rw [hst]
  cases hgt : goal.goalType with
  | cutting =>
    rw [hgt] at hv
    cases ht : goal.targetBodyFatPercentage with
    | none => rw [ht] at hv; simp [validate_goal_safety] at hv
    | some t =>
      rw [ht] at hv
      obtain ⟨htpos, hlt⟩ := validate_cutting_facts _ t _ gender hv
      simp [hgt, ht, htpos.ne', not_le.mpr hlt]
  | bulking =>
    rw [hgt] at hv
    cases hc : goal.ceilingBodyFatPercentage with
    | none => rw [hc] at hv; simp [validate_goal_safety] at hv
    | some c =>
      rw [hc] at hv
      have hlt := validate_bulking_facts _ c _ gender hv
      by_cases hc0 : c = 0
      · simp [hgt, hc, hc0]
      · simp [hgt, hc, hc0, not_le.mpr hlt]

/-- Concrete active cutting goal used as a witness: initial 25 percent,
target 18 percent. -/
def goalW5 : Goal :=
  { userId := 3, goalType := GoalType.cutting, status := GoalStatus.active,
    initialMeasurement :=
      { userId := 3, weightKg := 80, calculatedBodyFatPercentage := 25, measuredAt := 0 },
    targetBodyFatPercentage := some 18, ceilingBodyFatPercentage := none,
    targetCalories := 2311, estimatedWeeksToGoal := 40, startedAt := 0,
    completedAt := none, progressEntries := [] }

/-- C5 witness: the concrete goal passes validation and its completion
check at the initial body fat returns false. -/
theorem create_then_check_not_complete_witness :
    validate_goal_safety goalW5.goalType
      goalW5.initialMeasurement.calculatedBodyFatPercentage
      goalW5.targetBodyFatPercentage goalW5.ceilingBodyFatPercentage Gender.male
      = Except.ok () ∧
    goalW5.status = GoalStatus.active ∧
    check_goal_completion goalW5 goalW5.initialMeasurement.calculatedBodyFatPercentage 0
      = (false, goalW5) := by
  have hv : validate_goal_safety goalW5.goalType
      goalW5.initialMeasurement.calculatedBodyFatPercentage
      goalW5.targetBodyFatPercentage goalW5.ceilingBodyFatPercentage Gender.male
      = Except.ok () := by
    norm_num [validate_goal_safety, goalW5]
  exact ⟨hv, rfl, create_then_check_not_complete goalW5 Gender.male 0 hv rfl⟩

/-- C8: given an active goal and an owned measurement, `log_progress` fails
precisely when the whole-day gap from the prior checkpoint (the latest
entry's measurement, else the initial measurement) is under 7, the only
failure is TooSoon, and the error carries the actual elapsed day count. -/
theorem too_soon_iff (goal : Goal) (m : Measurement) (notes : Option String) (now : ℤ)
    (hst : goal.status = GoalStatus.active) (hown : m.userId = goal.userId)
    (e : LogError) :
    logProgress goal m notes now = Except.error e ↔
      (daysBetween m.measuredAt (priorCheckpointMeasurement goal).measuredAt < 7 ∧
       e = LogError.tooSoon
         (daysBetween m.measuredAt (priorCheckpointMeasurement goal).measuredAt)) := by
  unfold logProgress
  rw [hst, hown]
  simp only [ne_eq, not_true_eq_false, if_false, ite_false, reduceIte]
  split
  · constructor
    · intro h
      injection h with h
      exact ⟨by assumption, h.symm⟩
    · intro ⟨h1, h2⟩
      rw [h2]
  · constructor
    · intro h
      exact absurd h (by simp)
    · intro ⟨h1, h2⟩
      exact absurd h1 (by assumption)

/-- C1 (amended): the persisted is_on_track flag of a successful
log_progress call is computed from the body-fat change relative to the
prior checkpoint (the previous entry's measurement, or the initial
measurement for the first entry), not the cumulative change from goal
start: cutting is on track iff the absolute change from the prior
checkpoint lies in [0.4 x week_number, 1.2 x week_number], bulking iff the
signed change from the prior checkpoint lies in
[0.1 x week_number, 0.6 x week_number]. -/
theorem on_track_prior_checkpoint (goal : Goal) (m : Measurement)
    (notes : Option String) (now : ℤ) (r : LogResult)
    (h : logProgress goal m notes now = Except.ok r) :
    r.entry.isOnTrack = true ↔
      (match goal.goalType with
       | GoalType.cutting =>
         4/10 * ((goal.progressEntries.length + 1 : ℕ) : ℚ) ≤
           |m.calculatedBodyFatPercentage -
             (priorCheckpointMeasurement goal).calculatedBodyFatPercentage| ∧
         |m.calculatedBodyFatPercentage -
             (priorCheckpointMeasurement goal).calculatedBodyFatPercentage| ≤
           12/10 * ((goal.progressEntries.length + 1 : ℕ) : ℚ)
       | GoalType.bulking =>
         1/10 * ((goal.progressEntries.length + 1 : ℕ) : ℚ) ≤
           m.calculatedBodyFatPercentage -
             (priorCheckpointMeasurement goal).calculatedBodyFatPercentage ∧
         m.calculatedBodyFatPercentage -
             (priorCheckpointMeasurement goal).calculatedBodyFatPercentage ≤
           6/10 * ((goal.progressEntries.length + 1 : ℕ) : ℚ)) := by
  unfold logProgress at h
  split at h
  · exact absurd h (by simp)
  split at h
  · exact absurd h (by simp)
  dsimp only [] at h
  by_cases hd : daysBetween m.measuredAt (priorCheckpointMeasurement goal).measuredAt < 7
  · rw [if_pos hd] at h
    exact absurd h (by simp)
  · rw [if_neg hd] at h
    injection h with h
    subst h
    simp only [calculateOnTrackStatus]
    cases hgt : goal.goalType with
    | cutting =>
      simp only [hgt, decide_eq_true_eq]
      have harw : goal.initialMeasurement.calculatedBodyFatPercentage -
          (goal.initialMeasurement.calculatedBodyFatPercentage +
            (m.calculatedBodyFatPercentage -
              (priorCheckpointMeasurement goal).calculatedBodyFatPercentage)) =
          -(m.calculatedBodyFatPercentage -
            (priorCheckpointMeasurement goal).calculatedBodyFatPercentage) := by ring
      rw [harw, abs_neg]
    | bulking =>
      simp only [hgt, decide_eq_true_eq]

/-- C10: log_progress never mutates a cutting goal's status or
completed_at; for a bulking goal with a nonzero ceiling the goal is set to
COMPLETED with completed_at filled exactly when the new body-fat
percentage is at or above the ceiling, and is untouched otherwise. -/
theorem log_progress_goal_mutation (goal : Goal) (m : Measurement)
    (notes : Option String) (now : ℤ) (r : LogResult)
    (h : logProgress goal m notes now = Except.ok r) :
    (goal.goalType = GoalType.cutting →
      r.goal.status = goal.status ∧ r.goal.completedAt = goal.completedAt) ∧
    (∀ c : ℚ, goal.goalType = GoalType.bulking →
      goal.ceilingBodyFatPercentage = some c → c ≠ 0 →
      ((r.goal.status = GoalStatus.completed ∧ r.goal.completedAt = some now) ↔
        c ≤ m.calculatedBodyFatPercentage) ∧
      (¬ c ≤ m.calculatedBodyFatPercentage →
        r.goal.status = goal.status ∧ r.goal.completedAt = goal.completedAt)) := by
  unfold logProgress at h
  split at h
  · exact absurd h (by simp)
  next hstatus =>
  split at h
  · exact absurd h (by simp)
  next hown =>
  dsimp only [] at h
  by_cases hd : daysBetween m.measuredAt (priorCheckpointMeasurement goal).measuredAt < 7
  · rw [if_pos hd] at h
    exact absurd h (by simp)
  · rw [if_neg hd] at h
    injection h with h
    subst h
    have hactive : goal.status = GoalStatus.active := by
      by_contra hne
      exact hstatus hne
    constructor
    · intro hgt
      simp [hgt]
    · intro c hgt hc hc0
      simp only [hgt, hc]
      rw [if_neg hc0]
      unfold checkBulkingCeiling
      by_cases hce : c - m.calculatedBodyFatPercentage ≤ 0
      · rw [if_pos hce]
        have hcle : c ≤ m.calculatedBodyFatPercentage := by linarith
        simp [hcle]
      · rw [if_neg hce]
        have hnle : ¬ c ≤ m.calculatedBodyFatPercentage := fun hle => hce (by linarith)
        by_cases hnear : c - m.calculatedBodyFatPercentage < 1
        · rw [if_pos hnear]
          simp [hnle, hactive]
        · rw [if_neg hnear]
          simp [hnle, hactive]

/-- C3 (amended): for a goal with fewer than 2 progress entries, get_trends
returns trend insufficient_data, zero progress percentage and zero weekly
averages, and `adjustment_suggestion = None` (the keep-logging suggestion is
produced only once the trend classifier runs, i.e. from 2 entries on). -/
theorem insufficient_data_response (goal : Goal)
    (h : goal.progressEntries.length < 2) :
    (getTrends goal).trend = "insufficient_data" ∧
    (getTrends goal).progressPercentage = 0 ∧
    (getTrends goal).weeklyBfChangeAvg = 0 ∧
    (getTrends goal).weeklyWeightChangeAvg = 0 ∧
    (getTrends goal).adjustmentSuggestion = none := by
  have hlen : (sortEntriesByWeek goal.progressEntries).length < 2 := by
    rw [sortEntriesByWeek_length]
    exact h
  unfold getTrends
  dsimp only []
  rw [if_pos hlen]
  exact ⟨rfl, rfl, rfl, rfl, rfl⟩

/-- C3 counterexample: a goal with zero progress entries gets
`adjustment_suggestion = None` from get_trends, not the keep-logging
message the claim asserts. -/
theorem insufficient_data_suggestion_cx :
    goalW5.progressEntries.length < 2 ∧
    (getTrends goalW5).adjustmentSuggestion ≠
      some ("Keep logging weekly measurements to track progress") := by
  refine ⟨by decide, ?_⟩
  have hnone : (getTrends goalW5).adjustmentSuggestion = none := by
    unfold getTrends
    dsimp only []
    rw [if_pos (by decide : (sortEntriesByWeek goalW5.progressEntries).length < 2)]
  rw [hnone]
  intro h
  exact Option.noConfusion h

/-- C3 witness: the concrete empty-ledger goal instantiates the amended
claim. -/
theorem insufficient_data_response_witness :
    goalW5.progressEntries.length < 2 ∧
    (getTrends goalW5).trend = "insufficient_data" ∧
    (getTrends goalW5).progressPercentage = 0 ∧
    (getTrends goalW5).weeklyBfChangeAvg = 0 ∧
    (getTrends goalW5).weeklyWeightChangeAvg = 0 ∧
    (getTrends goalW5).adjustmentSuggestion = none := by
  have h := insufficient_data_response goalW5 (by decide)
  exact ⟨by decide, h.1, h.2.1, h.2.2.1, h.2.2.2.1, h.2.2.2.2⟩

/-- C2: for a cutting goal, get_trends classifies the trend from the mean
body-fat change of exactly the last three entries in week order: mean
below -0.4 gives improving, mean above -0.2 gives plateau, and the band in
between also gives improving; with fewer than three entries the trend is
insufficient_data. -/
theorem trend_last_three_cutting (goal : Goal)
    (hgt : goal.goalType = GoalType.cutting) :
    (goal.progressEntries.length < 3 →
      (getTrends goal).trend = "insufficient_data") ∧
    (∀ pre e1 e2 e3,
      sortEntriesByWeek goal.progressEntries = pre ++ [e1, e2, e3] →
      (getTrends goal).trend =
        (if (e1.bodyFatChange + e2.bodyFatChange + e3.bodyFatChange) / 3 < -(4/10)
         then "improving"
         else if (e1.bodyFatChange + e2.bodyFatChange + e3.bodyFatChange) / 3 > -(2/10)
         then "plateau"
         else "improving")) := by
  constructor
  · intro hlt
    have hlen : (sortEntriesByWeek goal.progressEntries).length < 3 := by
      rw [sortEntriesByWeek_length]
      exact hlt
    unfold getTrends
    dsimp only []
    by_cases h2 : (sortEntriesByWeek goal.progressEntries).length < 2
    · rw [if_pos h2]
    · rw [if_neg h2]
      dsimp only []
      unfold classifyTrend
      rw [if_pos hlen]
  · intro pre e1 e2 e3 hsort
    have hlen3 : (sortEntriesByWeek goal.progressEntries).length = pre.length + 3 := by
      rw [hsort]
      simp
    have h2 : ¬ (sortEntriesByWeek goal.progressEntries).length < 2 := by
      rw [hlen3]
      omega
    unfold getTrends
    dsimp only []
    rw [if_neg h2]
    dsimp only []
    unfold classifyTrend
    rw [if_neg (by rw [hlen3]; omega)]
    rw [hgt]
    dsimp only []
    have hdrop : (sortEntriesByWeek goal.progressEntries).drop
        ((sortEntriesByWeek goal.progressEntries).length - 3) = [e1, e2, e3] := by
      rw [hlen3, hsort]
      have harith : pre.length + 3 - 3 = pre.length := by omega
      rw [harith]
      exact List.drop_left pre [e1, e2, e3]
    rw [hdrop]
    have havg : (([e1, e2, e3].map (fun e => e.bodyFatChange)).sum /
        ((([e1, e2, e3].map (fun e => e.bodyFatChange)).length : ℕ) : ℚ)) =
        (e1.bodyFatChange + e2.bodyFatChange + e3.bodyFatChange) / 3 := by
      simp
      ring
    rw [havg]

/-! ### Concrete instances for witnesses and counterexamples -/

/-- Initial measurement of the concrete cutting goal: 30 percent body fat. -/
def cutMeas0 : Measurement :=
  { userId := 1, weightKg := 80, calculatedBodyFatPercentage := 30, measuredAt := 0 }

/-- Week-1 measurement of the concrete cutting goal: 29 percent at day 14. -/
def cutMeas1 : Measurement :=
  { userId := 1, weightKg := 79, calculatedBodyFatPercentage := 29, measuredAt := 14*86400 }

/-- The week-1 ledger entry already stored on the concrete cutting goal. -/
def cutEntry1 : ProgressEntry :=
  { weekNumber := 1, bodyFatPercentage := 29, weightKg := 79, bodyFatChange := -1,
    weightChangeKg := -1, isOnTrack := true, notes := none, loggedAt := 10,
    measurement := cutMeas1 }

/-- Concrete active cutting goal with one prior entry. -/
def cutGoalCx : Goal :=
  { userId := 1, goalType := GoalType.cutting, status := GoalStatus.active,
    initialMeasurement := cutMeas0, targetBodyFatPercentage := some 15,
    ceilingBodyFatPercentage := none, targetCalories := 2311,
    estimatedWeeksToGoal := 10, startedAt := 0, completedAt := none,
    progressEntries := [cutEntry1] }

/-- New week-2 measurement: 28.5 percent at day 28 (change -0.5 from the
prior checkpoint, cumulative -1.5 from goal start). -/
def cutMeasCx : Measurement :=
  { userId := 1, weightKg := 78, calculatedBodyFatPercentage := 57/2, measuredAt := 28*86400 }

/-- The week-2 entry log_progress creates for the concrete cutting goal. -/
def cutEntryCx : ProgressEntry :=
  { weekNumber := 2, bodyFatPercentage := 57/2, weightKg := 78, bodyFatChange := -1/2,
    weightChangeKg := -1, isOnTrack := false, notes := none, loggedAt := 100,
    measurement := cutMeasCx }

/-- The full result of log_progress on the concrete cutting goal. -/
def cutResultCx : LogResult :=
  { entry := cutEntryCx
    goal := { cutGoalCx with progressEntries := [cutEntry1, cutEntryCx] }
    ceilingWarning := none
    rateWarning := none }

/-- Evaluation of log_progress on the concrete week-2 cutting scenario. -/
theorem logProgress_cutCx_eval :
    logProgress cutGoalCx cutMeasCx none 100 = Except.ok cutResultCx := by
  have hfd : Int.fdiv (1209600 : ℤ) 86400 = 14 := by decide
  have habs : |(1/2 : ℚ)| = 1/2 := by rw [abs_of_pos]; norm_num
  unfold logProgress
  norm_num [cutGoalCx, cutMeasCx, cutMeas0, cutMeas1, cutEntry1, cutEntryCx, cutResultCx,
    priorCheckpointMeasurement, lastEntryByLoggedAt, daysBetween, hfd, habs,
    calculateOnTrackStatus]
  intro h
  exact absurd h (by decide)

/-- C1 counterexample: in the concrete week-2 scenario the persisted
is_on_track flag is false although the absolute cumulative change from
goal start (1.5 points) lies inside the claimed window
[0.4 x 2, 1.2 x 2]. -/
theorem on_track_cumulative_cx :
    logProgress cutGoalCx cutMeasCx none 100 = Except.ok cutResultCx ∧
    cutResultCx.entry.isOnTrack = false ∧
    cutGoalCx.goalType = GoalType.cutting ∧
    4/10 * ((cutGoalCx.progressEntries.length + 1 : ℕ) : ℚ) ≤
      |cutMeasCx.calculatedBodyFatPercentage -
        cutGoalCx.initialMeasurement.calculatedBodyFatPercentage| ∧
    |cutMeasCx.calculatedBodyFatPercentage -
        cutGoalCx.initialMeasurement.calculatedBodyFatPercentage| ≤
      12/10 * ((cutGoalCx.progressEntries.length + 1 : ℕ) : ℚ) := by
  have habs : |(57/2 - 30 : ℚ)| = 3/2 := by
    rw [show (57/2 - 30 : ℚ) = -(3/2) by norm_num, abs_neg, abs_of_pos]
    norm_num
  have habs32 : |(3/2 : ℚ)| = 3/2 := abs_of_pos (by norm_num)
  refine ⟨logProgress_cutCx_eval, rfl, rfl, ?_, ?_⟩
  all_goals norm_num [cutMeasCx, cutGoalCx, cutMeas0, habs, habs32]

/-- C1 witness: the amended claim instantiated at the concrete week-2
cutting scenario. -/
theorem on_track_prior_checkpoint_witness :
    logProgress cutGoalCx cutMeasCx none 100 = Except.ok cutResultCx ∧
    (cutResultCx.entry.isOnTrack = true ↔
      (match cutGoalCx.goalType with
       | GoalType.cutting =>
         4/10 * ((cutGoalCx.progressEntries.length + 1 : ℕ) : ℚ) ≤
           |cutMeasCx.calculatedBodyFatPercentage -
             (priorCheckpointMeasurement cutGoalCx).calculatedBodyFatPercentage| ∧
         |cutMeasCx.calculatedBodyFatPercentage -
             (priorCheckpointMeasurement cutGoalCx).calculatedBodyFatPercentage| ≤
           12/10 * ((cutGoalCx.progressEntries.length + 1 : ℕ) : ℚ)
       | GoalType.bulking =>
         1/10 * ((cutGoalCx.progressEntries.length + 1 : ℕ) : ℚ) ≤
           cutMeasCx.calculatedBodyFatPercentage -
             (priorCheckpointMeasurement cutGoalCx).calculatedBodyFatPercentage ∧
         cutMeasCx.calculatedBodyFatPercentage -
             (priorCheckpointMeasurement cutGoalCx).calculatedBodyFatPercentage ≤
           6/10 * ((cutGoalCx.progressEntries.length + 1 : ℕ) : ℚ))) :=
  ⟨logProgress_cutCx_eval,
   on_track_prior_checkpoint cutGoalCx cutMeasCx none 100 cutResultCx
     logProgress_cutCx_eval⟩

/-- Measurement only 3 days after the concrete goal's last checkpoint. -/
def soonMeasCx : Measurement :=
  { userId := 1, weightKg := 80, calculatedBodyFatPercentage := 29, measuredAt := 17*86400 }

/-- C8 witness: the concrete 3-day-early measurement fails with TooSoon
carrying the actual day count 3. -/
theorem too_soon_iff_witness :
    cutGoalCx.status = GoalStatus.active ∧
    soonMeasCx.userId = cutGoalCx.userId ∧
    logProgress cutGoalCx soonMeasCx none 100 = Except.error (LogError.tooSoon 3) := by
  refine ⟨rfl, rfl, ?_⟩
  have h3 : daysBetween soonMeasCx.measuredAt
      (priorCheckpointMeasurement cutGoalCx).measuredAt = 3 := by decide
  exact (too_soon_iff cutGoalCx soonMeasCx none 100 rfl rfl (LogError.tooSoon 3)).mpr
    ⟨by rw [h3]; decide, by rw [h3]⟩

/-- Initial measurement of the concrete bulking goal: 15 percent body fat. -/
def bulkMeas0 : Measurement :=
  { userId := 2, weightKg := 70, calculatedBodyFatPercentage := 15, measuredAt := 0 }

/-- Concrete active bulking goal with ceiling 18 percent and no entries. -/
def bulkGoalW : Goal :=
  { userId := 2, goalType := GoalType.bulking, status := GoalStatus.active,
    initialMeasurement := bulkMeas0, targetBodyFatPercentage := none,
    ceilingBodyFatPercentage := some 18, targetCalories := 3000,
    estimatedWeeksToGoal := 20, startedAt := 0, completedAt := none,
    progressEntries := [] }

/-- New measurement at 18.2 percent, above the 18 percent ceiling. -/
def bulkMeasW : Measurement :=
  { userId := 2, weightKg := 74, calculatedBodyFatPercentage := 91/5, measuredAt := 10*86400 }

/-- The entry log_progress creates for the concrete bulking goal. -/
def bulkEntryW : ProgressEntry :=
  { weekNumber := 1, bodyFatPercentage := 91/5, weightKg := 74, bodyFatChange := 16/5,
    weightChangeKg := 4, isOnTrack := false, notes := none, loggedAt := 99,
    measurement := bulkMeasW }

/-- The full result of log_progress on the concrete bulking goal: the goal
completes. -/
def bulkResultW : LogResult :=
  { entry := bulkEntryW
    goal := { bulkGoalW with
              status := GoalStatus.completed
              completedAt := some 99
              progressEntries := [bulkEntryW] }
    ceilingWarning := some CeilingWarning.reached
    rateWarning := none }

/-- Evaluation of log_progress on the concrete over-ceiling bulking
scenario. -/
theorem logProgress_bulkW_eval :
    logProgress bulkGoalW bulkMeasW none 99 = Except.ok bulkResultW := by
  have hfd : Int.fdiv (864000 : ℤ) 86400 = 10 := by decide
  unfold logProgress
  norm_num [bulkGoalW, bulkMeasW, bulkMeas0, bulkEntryW, bulkResultW,
    priorCheckpointMeasurement, lastEntryByLoggedAt, daysBetween, hfd,
    calculateOnTrackStatus, checkBulkingCeiling]

/-- C10 witness: on the concrete bulking goal the measurement at 18.2
percent (at the 18 percent ceiling threshold) completes the goal and fills
completed_at. -/
theorem log_progress_goal_mutation_witness :
    logProgress bulkGoalW bulkMeasW none 99 = Except.ok bulkResultW ∧
    bulkGoalW.goalType = GoalType.bulking ∧
    bulkGoalW.ceilingBodyFatPercentage = some 18 ∧
    ((18 : ℚ) ≤ bulkMeasW.calculatedBodyFatPercentage) ∧
    bulkResultW.goal.status = GoalStatus.completed ∧
    bulkResultW.goal.completedAt = some 99 := by
  have hle : (18:ℚ) ≤ bulkMeasW.calculatedBodyFatPercentage := by norm_num [bulkMeasW]
  have h := (log_progress_goal_mutation bulkGoalW bulkMeasW none 99 bulkResultW
    logProgress_bulkW_eval).2 18 rfl rfl (by norm_num)
  exact ⟨logProgress_bulkW_eval, rfl, rfl, hle, (h.1.mpr hle).1, (h.1.mpr hle).2⟩

/-- Week-1 entry of the three-entry trend goal: change -1. -/
def trendE1 : ProgressEntry :=
  { weekNumber := 1, bodyFatPercentage := 29, weightKg := 79, bodyFatChange := -1,
    weightChangeKg := -1, isOnTrack := true, notes := none, loggedAt := 1,
    measurement := cutMeas1 }

/-- Week-2 entry of the three-entry trend goal: change -1. -/
def trendE2 : ProgressEntry :=
  { weekNumber := 2, bodyFatPercentage := 28, weightKg := 78, bodyFatChange := -1,
    weightChangeKg := -1, isOnTrack := true, notes := none, loggedAt := 2,
    measurement := { userId := 1, weightKg := 78, calculatedBodyFatPercentage := 28,
                     measuredAt := 21*86400 } }

/-- Week-3 entry of the three-entry trend goal: change -0.5. -/
def trendE3 : ProgressEntry :=
  { weekNumber := 3, bodyFatPercentage := 55/2, weightKg := 77, bodyFatChange := -1/2,
    weightChangeKg := -1, isOnTrack := true, notes := none, loggedAt := 3,
    measurement := { userId := 1, weightKg := 77, calculatedBodyFatPercentage := 55/2,
                     measuredAt := 28*86400 } }

/-- Concrete cutting goal with three week-ordered entries. -/
def trendGoal3 : Goal :=
  { cutGoalCx with progressEntries := [trendE1, trendE2, trendE3] }

/-- C2 witness: the three-entry cutting goal with mean change -5/6 over the
last three entries is classified improving by get_trends. -/
theorem trend_last_three_cutting_witness :
    trendGoal3.goalType = GoalType.cutting ∧
    sortEntriesByWeek trendGoal3.progressEntries = [] ++ [trendE1, trendE2, trendE3] ∧
    (getTrends trendGoal3).trend = "improving" := by
  have hsort : sortEntriesByWeek trendGoal3.progressEntries
      = [] ++ [trendE1, trendE2, trendE3] := rfl
  refine ⟨rfl, hsort, ?_⟩
  rw [(trend_last_three_cutting trendGoal3 rfl).2 [] trendE1 trendE2 trendE3 hsort]
  norm_num [trendE1, trendE2, trendE3]

end BodyRecomp
